import Mathlib

/-!
# Verification of the nanovg-deko3d renderer core (`dk_renderer.cpp` / `dk_renderer.hpp`)

Shallow embedding of the renderer's data model and operations:

* the descriptor slot allocator (`DkRenderer::AcquireImageDescriptor`,
  `DkRenderer::FreeImageDescriptor`) over the `imageDescriptorMappings` array
  and the `lastImageDescriptor` high-water mark;
* the texture registry (`CreateTexture`, `DeleteTexture`, `UpdateTexture`,
  `GetTextureSize`, `GetTextureDescriptor`, `FindTexture`);
* the draw-call dispatcher (`SetUniforms`, `DrawFill`, `DrawConvexFill`,
  `DrawStroke`, `DrawTriangles`, `Flush`), modelled as a pure function from
  renderer state and context to the list of GPU commands recorded into the
  dynamic command buffer.

Machine integers are modelled as `Int`/`Nat`; none of the translated code
paths rely on wraparound (indices stay far below `2^31`).  GPU handles,
memory pools and shader blobs are opaque and appear only as command-stream
tokens.
-/

set_option autoImplicit false

namespace NvgDk

/-! ## Descriptor slot allocator (`dk_renderer.cpp` lines 185-235)

`DkRenderer` holds `std::array<int, MaxImages> imageDescriptorMappings`
(initially all `0`; entry `0` means the slot is free) and
`int lastImageDescriptor = 0`.  `MaxImages = 0x1000`. -/

/-- Constant `MaxImages = 0x1000` from `dk_renderer.hpp`. -/
def MaxImages : Nat := 0x1000

/-- Allocator state: the `imageDescriptorMappings` array (total function on
slot indices; the C++ array has `MaxImages` entries and is indexed only below
`MaxImages`) and the `lastImageDescriptor` high-water mark. -/
structure AllocState where
  mappings : Nat → Int
  lastImageDescriptor : Nat

/-- Initial allocator state: `imageDescriptorMappings({0})`,
`lastImageDescriptor = 0`. -/
def initAlloc : AllocState := ⟨fun _ => 0, 0⟩

/-- Result of `AcquireImageDescriptor`:
* `hit d` — the scan found `mappings[d] == image` and returned `d` without
  emitting any command (the early `return desc`);
* `miss d` — a candidate free slot `d` was used: the code emits a descriptor
  update and a descriptor-cache invalidation barrier, writes the mapping and
  assigns `lastImageDescriptor = d`;
* `fail` — the candidate index reached `MaxImages`; the function returns `-1`. -/
inductive AcquireResult where
  | hit (slot : Nat)
  | miss (slot : Nat)
  | fail
deriving DecidableEq, Repr

/-- The scan loop of `AcquireImageDescriptor`
(`for (int desc = 0; desc <= lastImageDescriptor; desc++)`), fuel-indexed so
that it computes by structural recursion.  `desc` is the loop counter, `free`
is `freeImageDescriptor` (initially `last + 1`), and `fuel` is the number of
iterations left (`last + 1 - desc`).  Returns `Sum.inl desc` for the early
`return desc` on a mapping hit, `Sum.inr free` when the loop falls through. -/
def scanFrom (mappings : Nat → Int) (image : Int) (last : Nat) :
    Nat → Nat → Nat → Sum Nat Nat
  | _, free, 0 => Sum.inr free
  | desc, free, fuel + 1 =>
    if mappings desc = image then
      Sum.inl desc
    else if mappings desc = 0 ∧ free = last + 1 then
      scanFrom mappings image last (desc + 1) desc fuel
    else
      scanFrom mappings image last (desc + 1) free fuel

/-- Function `DkRenderer::AcquireImageDescriptor` (lines 185-223).  The scan runs
`desc = 0 .. lastImageDescriptor`; on fall-through, if the candidate is
`>= MaxImages` the call fails, otherwise the candidate slot is written with
`image` and `lastImageDescriptor` is assigned the candidate index
(unconditionally, exactly as in the source). -/
def acquire (st : AllocState) (image : Int) : AcquireResult × AllocState :=
  match scanFrom st.mappings image st.lastImageDescriptor 0
      (st.lastImageDescriptor + 1) (st.lastImageDescriptor + 1) with
  | Sum.inl desc => (AcquireResult.hit desc, st)
  | Sum.inr freeImageDescriptor =>
    if MaxImages ≤ freeImageDescriptor then
      (AcquireResult.fail, st)
    else
      (AcquireResult.miss freeImageDescriptor,
        { mappings := fun i => if i = freeImageDescriptor then image else st.mappings i,
          lastImageDescriptor := freeImageDescriptor })

/-- Function `DkRenderer::FreeImageDescriptor` (lines 225-235): clear every slot
`desc = 0 .. lastImageDescriptor` whose mapping equals `image` (each loop
iteration reads and writes only slot `desc`, so the loop acts pointwise). -/
def freeImageDescriptor (st : AllocState) (image : Int) : AllocState :=
  { st with
    mappings := fun desc =>
      if desc ≤ st.lastImageDescriptor ∧ st.mappings desc = image then 0
      else st.mappings desc }

/-- One operation on the allocator, as invoked by `SetUniforms`
(`AcquireImageDescriptor`) and `DeleteTexture` (`FreeImageDescriptor`). -/
inductive AllocOp where
  | acquireOp (image : Int)
  | releaseOp (image : Int)

/-- Apply one allocator operation (the acquire's return value is discarded;
only the state effect is kept). -/
def applyAllocOp (st : AllocState) (op : AllocOp) : AllocState :=
  match op with
  | AllocOp.acquireOp image => (acquire st image).2
  | AllocOp.releaseOp image => freeImageDescriptor st image

/-- Run a sequence of allocator operations from the initial all-free state. -/
def runAllocOps (ops : List AllocOp) : AllocState :=
  ops.foldl applyAllocOp initAlloc

/-- Run a sequence of acquires (state effects only) from a given state. -/
def runAcquires (st : AllocState) (images : List Int) : AllocState :=
  images.foldl (fun s image => (acquire s image).2) st

/-! ### Characterization of the scan loop -/

/-- If the scan falls through (no early return), no scanned slot maps `image`. -/
theorem scanFrom_inr_not_mem (m : Nat → Int) (image : Int) (last : Nat) :
    ∀ fuel desc free f, scanFrom m image last desc free fuel = Sum.inr f →
      ∀ j, desc ≤ j → j < desc + fuel → m j ≠ image := by
  intro fuel
  induction fuel with
  | zero =>
    intro desc free f _ j h1 h2
    omega
  | succ n ih =>
    intro desc free f hscan j h1 h2
    by_cases hm : m desc = image
    · simp [scanFrom, hm] at hscan
    · rcases Nat.eq_or_lt_of_le h1 with rfl | hlt
      · exact hm
      · simp only [scanFrom, if_neg hm] at hscan
        split at hscan
        · exact ih (desc + 1) desc f hscan j hlt (by omega)
        · exact ih (desc + 1) free f hscan j hlt (by omega)

/-- Once a free candidate below `last + 1` has been recorded, the fall-through
result is that candidate (the `freeImageDescriptor == lastImageDescriptor + 1`
guard keeps the first recorded candidate). -/
theorem scanFrom_inr_found (m : Nat → Int) (image : Int) (last : Nat) :
    ∀ fuel desc free f, free ≠ last + 1 →
      scanFrom m image last desc free fuel = Sum.inr f → f = free := by
  intro fuel
  induction fuel with
  | zero =>
    intro desc free f _ hscan
    simpa [scanFrom] using hscan.symm
  | succ n ih =>
    intro desc free f hfree hscan
    by_cases hm : m desc = image
    · simp [scanFrom, hm] at hscan
    · simp only [scanFrom, if_neg hm] at hscan
      split at hscan
      · next hcond => exact absurd hcond.2 hfree
      · exact ih (desc + 1) free f hfree hscan

/-- Fall-through starting in the not-yet-found mode (`free = last + 1`):
either no slot in the scanned suffix is free and the candidate stays
`last + 1`, or the candidate is the first free slot of the suffix. -/
theorem scanFrom_inr_free_spec (m : Nat → Int) (image : Int) (last : Nat) :
    ∀ fuel desc f, desc + fuel = last + 1 →
      scanFrom m image last desc (last + 1) fuel = Sum.inr f →
      (f = last + 1 ∧ ∀ j, desc ≤ j → j ≤ last → m j ≠ 0)
      ∨ (desc ≤ f ∧ f ≤ last ∧ m f = 0 ∧ ∀ j, desc ≤ j → j < f → m j ≠ 0) := by
  intro fuel
  induction fuel with
  | zero =>
    intro desc f h hscan
    left
    refine ⟨by simpa [scanFrom] using hscan.symm, ?_⟩
    intro j h1 h2
    omega
  | succ n ih =>
    intro desc f h hscan
    have hdesc : desc ≤ last := by omega
    by_cases hm : m desc = image
    · simp [scanFrom, hm] at hscan
    · simp only [scanFrom, if_neg hm] at hscan
      split at hscan
      · next hc =>
        have hz : m desc = 0 := hc.1
        have hne : desc ≠ last + 1 := by omega
        have := scanFrom_inr_found m image last n (desc + 1) desc f hne hscan
        subst this
        right
        exact ⟨Nat.le_refl _, hdesc, hz, fun j h1 h2 => by omega⟩
      · next hc =>
        have hz : m desc ≠ 0 := fun h0 => hc ⟨h0, by trivial⟩
        rcases ih (desc + 1) f (by omega) hscan with ⟨hf, hall⟩ | ⟨h1, h2, h3, h4⟩
        · left
          refine ⟨hf, fun j hj1 hj2 => ?_⟩
          rcases Nat.eq_or_lt_of_le hj1 with rfl | hlt
          · exact hz
          · exact hall j hlt hj2
        · right
          refine ⟨by omega, h2, h3, fun j hj1 hj2 => ?_⟩
          rcases Nat.eq_or_lt_of_le hj1 with rfl | hlt
          · exact hz
          · exact h4 j hlt hj2

/-- If `s` is the first slot in range mapping `image`, the scan returns it. -/
theorem scanFrom_inl_first (m : Nat → Int) (image : Int) (last : Nat) (s : Nat)
    (hs : m s = image) (hfirst : ∀ j, j < s → m j ≠ image) :
    ∀ fuel desc free, desc ≤ s → s < desc + fuel →
      scanFrom m image last desc free fuel = Sum.inl s := by
  intro fuel
  induction fuel with
  | zero =>
    intro desc free h1 h2
    omega
  | succ n ih =>
    intro desc free h1 h2
    rcases Nat.eq_or_lt_of_le h1 with rfl | hlt
    · simp [scanFrom, hs]
    · have hm : m desc ≠ image := hfirst desc hlt
      simp only [scanFrom, if_neg hm]
      split
      · exact ih (desc + 1) desc hlt (by omega)
      · exact ih (desc + 1) free hlt (by omega)

/-! ### Acquire result characterization -/

/-- A successful cache-miss acquire: no slot at or below the mark held
`image`; the candidate is either the slot just above the mark (when no slot
was free) or the first free slot; and the resulting state writes `image`
into the candidate and assigns the mark to the candidate. -/
theorem acquire_miss_spec (st : AllocState) (image : Int) (c : Nat)
    (h : (acquire st image).1 = AcquireResult.miss c) :
    (∀ j, j ≤ st.lastImageDescriptor → st.mappings j ≠ image)
    ∧ ((c = st.lastImageDescriptor + 1
          ∧ ∀ j, j ≤ st.lastImageDescriptor → st.mappings j ≠ 0)
       ∨ (c ≤ st.lastImageDescriptor ∧ st.mappings c = 0
          ∧ ∀ j, j < c → st.mappings j ≠ 0))
    ∧ c < MaxImages
    ∧ (acquire st image).2.lastImageDescriptor = c
    ∧ ∀ i, (acquire st image).2.mappings i
        = if i = c then image else st.mappings i := by
  rcases hscan : scanFrom st.mappings image st.lastImageDescriptor 0
      (st.lastImageDescriptor + 1) (st.lastImageDescriptor + 1) with d | free
  · simp [acquire, hscan] at h
  · by_cases hmax : MaxImages ≤ free
    · simp [acquire, hscan, hmax] at h
    · simp only [acquire, hscan, if_neg hmax] at h ⊢
      simp only [AcquireResult.miss.injEq] at h
      subst h
      refine ⟨?_, ?_, by omega, rfl, fun i => rfl⟩
      · intro j hj
        exact scanFrom_inr_not_mem st.mappings image st.lastImageDescriptor
          (st.lastImageDescriptor + 1) 0 (st.lastImageDescriptor + 1) free hscan j
          (Nat.zero_le j) (by omega)
      · rcases scanFrom_inr_free_spec st.mappings image st.lastImageDescriptor
            (st.lastImageDescriptor + 1) 0 free (by omega) hscan with ⟨h1, h2⟩ | ⟨_, h2, h3, h4⟩
        · exact Or.inl ⟨h1, fun j hj => h2 j (Nat.zero_le j) hj⟩
        · exact Or.inr ⟨h2, h3, fun j hj => h4 j (Nat.zero_le j) hj⟩

/-- A cache-hit or failed acquire leaves the state unchanged. -/
theorem acquire_state_eq_of_not_miss (st : AllocState) (image : Int)
    (h : ∀ c, (acquire st image).1 ≠ AcquireResult.miss c) :
    (acquire st image).2 = st := by
  rcases hscan : scanFrom st.mappings image st.lastImageDescriptor 0
      (st.lastImageDescriptor + 1) (st.lastImageDescriptor + 1) with d | free
  · simp [acquire, hscan]
  · by_cases hmax : MaxImages ≤ free
    · simp [acquire, hscan, hmax]
    · exact absurd (by simp [acquire, hscan, hmax]) (h free)

/-! ### Slot-uniqueness invariant (claim about the mapping table) -/

/-- Among the slots the allocator actually scans (indices at or below the
high-water mark `lastImageDescriptor`), each nonzero image id occupies at
most one slot. -/
def SlotInv (st : AllocState) : Prop :=
  ∀ i j, i ≤ st.lastImageDescriptor → j ≤ st.lastImageDescriptor →
    st.mappings i = st.mappings j → st.mappings i ≠ 0 → i = j

theorem slotInv_init : SlotInv initAlloc := by
  intro i j _ _ _ hne
  exact absurd rfl hne

theorem slotInv_acquire (st : AllocState) (image : Int) (h : SlotInv st) :
    SlotInv (acquire st image).2 := by
  rcases hres : (acquire st image).1 with d | c | _
  · rw [acquire_state_eq_of_not_miss st image (by simp [hres])]
    exact h
  · obtain ⟨hnm, hcand, _, hlast, hmap⟩ := acquire_miss_spec st image c hres
    intro i j hi hj heq hne
    rw [hlast] at hi hj
    rw [hmap i, hmap j] at heq
    rw [hmap i] at hne
    by_cases hic : i = c
    · by_cases hjc : j = c
      · rw [hic, hjc]
      · rw [if_pos hic, if_neg hjc] at heq
        have hjlast : j ≤ st.lastImageDescriptor := by
          rcases hcand with ⟨hc1, _⟩ | ⟨hc1, _, _⟩ <;> omega
        exact absurd heq.symm (hnm j hjlast)
    · by_cases hjc : j = c
      · rw [if_neg hic, if_pos hjc] at heq
        have hilast : i ≤ st.lastImageDescriptor := by
          rcases hcand with ⟨hc1, _⟩ | ⟨hc1, _, _⟩ <;> omega
        exact absurd heq (hnm i hilast)
      · rw [if_neg hic, if_neg hjc] at heq
        rw [if_neg hic] at hne
        have hilast : i ≤ st.lastImageDescriptor := by
          rcases hcand with ⟨hc1, _⟩ | ⟨hc1, _, _⟩ <;> omega
        have hjlast : j ≤ st.lastImageDescriptor := by
          rcases hcand with ⟨hc1, _⟩ | ⟨hc1, _, _⟩ <;> omega
        exact h i j hilast hjlast heq hne
  · rw [acquire_state_eq_of_not_miss st image (by simp [hres])]
    exact h

theorem slotInv_release (st : AllocState) (image : Int) (h : SlotInv st) :
    SlotInv (freeImageDescriptor st image) := by
  intro i j hi hj heq hne
  simp only [freeImageDescriptor] at hi hj heq hne
  by_cases hci : i ≤ st.lastImageDescriptor ∧ st.mappings i = image
  · rw [if_pos hci] at hne
    exact absurd rfl hne
  · rw [if_neg hci] at heq hne
    by_cases hcj : j ≤ st.lastImageDescriptor ∧ st.mappings j = image
    · rw [if_pos hcj] at heq
      exact absurd heq hne
    · rw [if_neg hcj] at heq
      exact h i j hi hj heq hne

theorem slotInv_applyOp (st : AllocState) (op : AllocOp) (h : SlotInv st) :
    SlotInv (applyAllocOp st op) := by
  cases op with
  | acquireOp image => exact slotInv_acquire st image h
  | releaseOp image => exact slotInv_release st image h

theorem slotInv_foldl (ops : List AllocOp) :
    ∀ st : AllocState, SlotInv st → SlotInv (ops.foldl applyAllocOp st) := by
  induction ops with
  | nil => intro st h; exact h
  | cons op rest ih =>
    intro st h
    exact ih (applyAllocOp st op) (slotInv_applyOp st op h)

/-- C1 (amended): in every state reachable by Acquire/Release interleavings
from the all-free initial state, each nonzero logical texture id is mapped by
at most one descriptor slot **at or below the high-water mark** (slots above
the mark can retain stale duplicate mappings once a cache-miss acquire reuses
a freed lower slot and thereby lowers the mark). -/
theorem runAllocOps_at_most_one_slot_below_mark (ops : List AllocOp) (i j : Nat)
    (hi : i ≤ (runAllocOps ops).lastImageDescriptor)
    (hj : j ≤ (runAllocOps ops).lastImageDescriptor)
    (heq : (runAllocOps ops).mappings i = (runAllocOps ops).mappings j)
    (hne : (runAllocOps ops).mappings i ≠ 0) : i = j :=
  slotInv_foldl ops initAlloc slotInv_init i j hi hj heq hne

theorem runAllocOps_at_most_one_slot_below_mark_witness :
    ((1 : Nat) ≤ (runAllocOps [AllocOp.acquireOp 5, AllocOp.acquireOp 7]).lastImageDescriptor
      ∧ (runAllocOps [AllocOp.acquireOp 5, AllocOp.acquireOp 7]).mappings 1 ≠ 0)
    ∧ (1 : Nat) = 1 :=
  ⟨⟨by decide, by decide⟩,
    runAllocOps_at_most_one_slot_below_mark [AllocOp.acquireOp 5, AllocOp.acquireOp 7]
      1 1 (by decide) (by decide) rfl (by decide)⟩

/-- C1 (counterexample to the claim as stated): after
`Acquire 5, Acquire 7, Acquire 9, Release 5, Acquire 11, Acquire 9`
(no intervening `Release 9`), image id `9` is simultaneously mapped by
descriptor slots `1` and `2`: the acquire of `11` reused freed slot `0` and
lowered `lastImageDescriptor` from `2` to `0`, hiding the live mapping of `9`
in slot `2` from the scan, so the final acquire of `9` wrote a second mapping
into slot `1`. -/
theorem runAllocOps_duplicate_mapping_reachable :
    (runAllocOps [AllocOp.acquireOp 5, AllocOp.acquireOp 7, AllocOp.acquireOp 9,
        AllocOp.releaseOp 5, AllocOp.acquireOp 11, AllocOp.acquireOp 9]).mappings 1 = 9
    ∧ (runAllocOps [AllocOp.acquireOp 5, AllocOp.acquireOp 7, AllocOp.acquireOp 9,
        AllocOp.releaseOp 5, AllocOp.acquireOp 11, AllocOp.acquireOp 9]).mappings 2 = 9
    ∧ (1 : Nat) ≠ 2 := by
  refine ⟨by decide, by decide, by decide⟩

/-- C2 (amended): after a successful cache-miss acquire that assigns candidate
slot `c`, the high-water mark equals `c` itself — the source assigns
`lastImageDescriptor = freeImageDescriptor` unconditionally, so the mark
**decreases** whenever the candidate is a freed slot below the previous mark. -/
theorem acquire_miss_sets_mark_to_candidate (st : AllocState) (image : Int) (c : Nat)
    (h : (acquire st image).1 = AcquireResult.miss c) :
    (acquire st image).2.lastImageDescriptor = c :=
  (acquire_miss_spec st image c h).2.2.2.1

theorem acquire_miss_sets_mark_to_candidate_witness :
    (acquire initAlloc 5).1 = AcquireResult.miss 0
    ∧ (acquire initAlloc 5).2.lastImageDescriptor = 0 :=
  ⟨by decide, acquire_miss_sets_mark_to_candidate initAlloc 5 0 (by decide)⟩

/-- C2 (counterexample to the claim as stated): from the reachable state after
`Acquire 5, Acquire 7, Acquire 9, Release 5` the high-water mark is `2`; the
cache-miss `Acquire 11` assigns candidate slot `0`, and the mark afterwards is
`0`, not `max 2 0 = 2` — the acquire decreased the high-water mark. -/
theorem acquire_can_decrease_mark :
    (runAllocOps [AllocOp.acquireOp 5, AllocOp.acquireOp 7, AllocOp.acquireOp 9,
        AllocOp.releaseOp 5]).lastImageDescriptor = 2
    ∧ (acquire (runAllocOps [AllocOp.acquireOp 5, AllocOp.acquireOp 7, AllocOp.acquireOp 9,
        AllocOp.releaseOp 5]) 11).1 = AcquireResult.miss 0
    ∧ (acquire (runAllocOps [AllocOp.acquireOp 5, AllocOp.acquireOp 7, AllocOp.acquireOp 9,
        AllocOp.releaseOp 5]) 11).2.lastImageDescriptor = 0 := by
  refine ⟨by decide, by decide, by decide⟩

/-! ### Cache-hit stability after a cache-miss acquire -/

/-- State predicate making `Acquire image` a cache hit at slot `s`: slot `s`
holds `image`, `s` is within the scanned range, and every slot strictly below
`s` is occupied by some other nonzero id. -/
def HitAt (image : Int) (s : Nat) (st : AllocState) : Prop :=
  st.mappings s = image ∧ s ≤ st.lastImageDescriptor
  ∧ ∀ j, j < s → st.mappings j ≠ 0 ∧ st.mappings j ≠ image

theorem hitAt_after_miss (st : AllocState) (image : Int) (s : Nat)
    (h : (acquire st image).1 = AcquireResult.miss s) :
    HitAt image s (acquire st image).2 := by
  obtain ⟨hnm, hcand, _, hlast, hmap⟩ := acquire_miss_spec st image s h
  refine ⟨by rw [hmap s, if_pos rfl], by omega, fun j hj => ?_⟩
  have hjs : j ≠ s := by omega
  rw [hmap j, if_neg hjs]
  rcases hcand with ⟨hc1, hc2⟩ | ⟨hc1, _, hc3⟩
  · exact ⟨hc2 j (by omega), hnm j (by omega)⟩
  · exact ⟨hc3 j hj, hnm j (by omega)⟩

/-- Predicate `HitAt` is preserved by any further acquire, provided `image ≠ 0`: a
cache-miss candidate is either a free slot (hence above `s`, since every slot
below `s` is occupied and slot `s` holds the nonzero `image`) or the slot just
above the mark, so slot `s` is never overwritten and the mark never drops
below `s`. -/
theorem hitAt_acquire (st : AllocState) (image img : Int) (s : Nat)
    (himg : image ≠ 0) (h : HitAt image s st) : HitAt image s (acquire st img).2 := by
  obtain ⟨h1, h2, h3⟩ := h
  rcases hres : (acquire st img).1 with d | c | _
  · rw [acquire_state_eq_of_not_miss st img (by simp [hres])]
    exact ⟨h1, h2, h3⟩
  · obtain ⟨hnm, hcand, _, hlast, hmap⟩ := acquire_miss_spec st img c hres
    have hcs : s < c := by
      rcases hcand with ⟨hc1, _⟩ | ⟨_, hc2, _⟩
      · omega
      · rcases Nat.lt_trichotomy s c with hlt | rfl | hgt
        · exact hlt
        · rw [h1] at hc2
          exact absurd hc2 himg
        · exact absurd hc2 (h3 c hgt).1
    refine ⟨?_, by omega, fun j hj => ?_⟩
    · rw [hmap s, if_neg (by omega)]
      exact h1
    · rw [hmap j, if_neg (by omega)]
      exact h3 j hj
  · rw [acquire_state_eq_of_not_miss st img (by simp [hres])]
    exact ⟨h1, h2, h3⟩

theorem hitAt_runAcquires (image : Int) (s : Nat) (himg : image ≠ 0) :
    ∀ (images : List Int) (st : AllocState),
      HitAt image s st → HitAt image s (runAcquires st images) := by
  intro images
  induction images with
  | nil => intro st h; exact h
  | cons img rest ih =>
    intro st h
    exact ih ((acquire st img).2) (hitAt_acquire st image img s himg h)

/-- In any `HitAt` state, `Acquire image` takes the cache-hit branch at slot
`s`: it returns `s` via the early `return desc`, emits no descriptor update
or barrier, and the state (mapping table and high-water mark) is unchanged. -/
theorem acquire_hit_of_hitAt (st : AllocState) (image : Int) (s : Nat)
    (h : HitAt image s st) : acquire st image = (AcquireResult.hit s, st) := by
  obtain ⟨h1, h2, h3⟩ := h
  have hscan : scanFrom st.mappings image st.lastImageDescriptor 0
      (st.lastImageDescriptor + 1) (st.lastImageDescriptor + 1) = Sum.inl s :=
    scanFrom_inl_first st.mappings image st.lastImageDescriptor s h1
      (fun j hj => (h3 j hj).2) (st.lastImageDescriptor + 1) 0
      (st.lastImageDescriptor + 1) (Nat.zero_le s) (by omega)
  simp [acquire, hscan]

/-- C7 (amended): after a **cache-miss** `Acquire(tex, image)` returns slot
`s` (`image ≠ 0`, as all texture ids are), any subsequent `Acquire(tex, image)`
with no intervening `Release` of **any** id — only further acquires — returns
the same slot `s` via the cache-hit branch, emitting no descriptor-update
command and leaving the mapping table and high-water mark unchanged. -/
theorem acquire_cache_hit_after_miss (st : AllocState) (image : Int) (s : Nat)
    (images : List Int) (himg : image ≠ 0)
    (hmiss : (acquire st image).1 = AcquireResult.miss s) :
    acquire (runAcquires (acquire st image).2 images) image
      = (AcquireResult.hit s, runAcquires (acquire st image).2 images) :=
  acquire_hit_of_hitAt _ image s
    (hitAt_runAcquires image s himg images _ (hitAt_after_miss st image s hmiss))

theorem acquire_cache_hit_after_miss_witness :
    ((7 : Int) ≠ 0 ∧ (acquire (runAllocOps [AllocOp.acquireOp 5]) 7).1 = AcquireResult.miss 1)
    ∧ acquire (runAcquires (acquire (runAllocOps [AllocOp.acquireOp 5]) 7).2 [11]) 7
        = (AcquireResult.hit 1,
            runAcquires (acquire (runAllocOps [AllocOp.acquireOp 5]) 7).2 [11]) :=
  ⟨⟨by decide, by decide⟩,
    acquire_cache_hit_after_miss (runAllocOps [AllocOp.acquireOp 5]) 7 1 [11]
      (by decide) (by decide)⟩

/-- C7 (counterexample to the claim as stated): `Acquire 9` (after
`Acquire 5, Acquire 7`) returns slot `2` by cache miss.  With no intervening
`Release 9` — the intervening operations are `Release 5` and `Acquire 11` —
the next `Acquire 9` does **not** return slot `2`: the mark dropped below
slot `2`, so the acquire misses and assigns a fresh slot `1`, emitting a
descriptor update and mutating the table and the mark. -/
theorem acquire_second_acquire_not_hit :
    (acquire (runAllocOps [AllocOp.acquireOp 5, AllocOp.acquireOp 7]) 9).1
      = AcquireResult.miss 2
    ∧ (acquire (runAllocOps [AllocOp.acquireOp 5, AllocOp.acquireOp 7, AllocOp.acquireOp 9,
        AllocOp.releaseOp 5, AllocOp.acquireOp 11]) 9).1 = AcquireResult.miss 1 := by
  refine ⟨by decide, by decide⟩

/-! ## Texture registry (`dk_renderer.cpp` lines 64-125, 472-569)

`nanovg.h` constants consumed at this boundary (external header):
`NVG_TEXTURE_ALPHA = 1`, `NVG_TEXTURE_RGBA = 2`. -/

def NVG_TEXTURE_ALPHA : Int := 1
def NVG_TEXTURE_RGBA : Int := 2

/-- Structure `DKNVGtextureDescriptor` from `dk_renderer.hpp`. -/
structure DKNVGtextureDescriptor where
  width : Int
  height : Int
  type : Int
  flags : Int
deriving DecidableEq, Repr

/-- A `Texture`: its id and its `DKNVGtextureDescriptor` (the GPU image,
its descriptor and its memory handle are opaque to this development). -/
structure Texture where
  id : Int
  textureDescriptor : DKNVGtextureDescriptor
deriving DecidableEq, Repr

/-- The mutable renderer state relevant to the claims: `nextTextureId`, the
`textures` vector (in `push_back` order) and the descriptor slot allocator. -/
structure RState where
  nextTextureId : Int
  textures : List Texture
  alloc : AllocState

/-- Freshly constructed `DkRenderer`: `nextTextureId = 1`, no textures,
all-zero descriptor mappings. -/
def initRState : RState := ⟨1, [], initAlloc⟩

/-- Function `DkRenderer::FindTexture` (lines 472-483): first texture in vector order
whose id matches. -/
def findTexture (st : RState) (id : Int) : Option Texture :=
  st.textures.find? (fun t => t.id == id)

/-- Function `DkRenderer::CreateTexture` (lines 485-492): assign `nextTextureId++`,
initialize the texture (descriptor recorded; any initial pixel upload is a
side effect on the opaque GPU image) and `push_back` it. -/
def createTexture (st : RState) (type w h imageFlags : Int) : Int × RState :=
  let textureId := st.nextTextureId
  (textureId,
    { st with
      nextTextureId := st.nextTextureId + 1,
      textures := st.textures ++ [⟨textureId, ⟨w, h, type, imageFlags⟩⟩] })

/-- Function `DkRenderer::DeleteTexture` (lines 494-515): erase every texture with the
given id (returning whether any was found) and free its descriptor slots. -/
def deleteTexture (st : RState) (image : Int) : Int × RState :=
  let found := st.textures.any (fun t => t.id == image)
  (if found then 1 else 0,
    { st with
      textures := st.textures.filter (fun t => !(t.id == image)),
      alloc := freeImageDescriptor st.alloc image })

/-- Function `DkRenderer::GetTextureDescriptor` (lines 558-569). -/
def getTextureDescriptor (st : RState) (id : Int) : Option DKNVGtextureDescriptor :=
  match findTexture st id with
  | none => none
  | some t => some t.textureDescriptor

/-- Function `DkRenderer::GetTextureSize` (lines 544-556), with the out-parameters
`*w`/`*h` modelled by value passing: the result triple is
`(return value, final *w, final *h)`; the source writes the out-parameters
only after the descriptor lookup succeeds. -/
def getTextureSize (st : RState) (image : Int) (w h : Int) : Int × Int × Int :=
  match getTextureDescriptor st image with
  | none => (0, w, h)
  | some descriptor => (1, descriptor.width, descriptor.height)

/-- The observable effect of one `copyBufferToImage` transfer issued by
`UpdateImage` (lines 34-60): destination rectangle, the byte offset into the
caller's `data` at which reading starts, and the number of bytes copied. -/
structure Transfer where
  x : Int
  y : Int
  width : Int
  height : Int
  srcOffset : Int
  size : Int
deriving DecidableEq, Repr

/-- Function `UpdateImage` (lines 34-60): no-op when `data == nullptr`; otherwise one
transfer of `w * h * 4` bytes (RGBA) or `w * h` bytes (alpha-only) into the
rectangle `(x, y, w, h)`.  `srcOffset` records how far the caller advanced
the `data` pointer. -/
def updateImage (type x y w h srcOffset : Int) (dataProvided : Bool) : Option Transfer :=
  if dataProvided then
    some { x := x, y := y, width := w, height := h, srcOffset := srcOffset,
           size := if type = NVG_TEXTURE_RGBA then w * h * 4 else w * h }
  else
    none

/-- Function `DkRenderer::UpdateTexture` (lines 517-542): look up the texture; advance
`data` by `y * width * bytes-per-pixel`, then override `x = 0` and
`w = texDesc->width` before delegating to `UpdateImage`. -/
def updateTexture (st : RState) (image x y w h : Int) (dataProvided : Bool) :
    Int × Option Transfer :=
  match findTexture st image with
  | none => (0, none)
  | some texture =>
    let texDesc := texture.textureDescriptor
    let srcOffset := if texDesc.type = NVG_TEXTURE_RGBA then y * texDesc.width * 4
                     else y * texDesc.width
    let x := 0
    let w := texDesc.width
    (1, updateImage texDesc.type x y w h srcOffset dataProvided)

/-- One registry operation, as issued by the nanovg callbacks. -/
inductive RegOp where
  | createOp (type w h imageFlags : Int)
  | deleteOp (image : Int)

/-- Apply one registry operation (returned values discarded). -/
def applyRegOp (st : RState) (op : RegOp) : RState :=
  match op with
  | RegOp.createOp type w h imageFlags => (createTexture st type w h imageFlags).2
  | RegOp.deleteOp image => (deleteTexture st image).2

/-- The ids returned by the successive `CreateTexture` calls of an operation
sequence, in call order. -/
def createdIds (st : RState) : List RegOp → List Int
  | [] => []
  | RegOp.createOp type w h imageFlags :: rest =>
    (createTexture st type w h imageFlags).1
      :: createdIds (createTexture st type w h imageFlags).2 rest
  | RegOp.deleteOp image :: rest => createdIds (deleteTexture st image).2 rest

/-- Number of `CreateTexture` calls in an operation sequence. -/
def countCreates : List RegOp → Nat
  | [] => 0
  | RegOp.createOp _ _ _ _ :: rest => countCreates rest + 1
  | RegOp.deleteOp _ :: rest => countCreates rest

theorem createdIds_eq (ops : List RegOp) :
    ∀ st : RState, createdIds st ops
      = (List.range (countCreates ops)).map (fun k : Nat => st.nextTextureId + (k : Int)) := by
  induction ops with
  | nil => intro st; rfl
  | cons op rest ih =>
    intro st
    cases op with
    | createOp type w h imageFlags =>
      show (createTexture st type w h imageFlags).1
          :: createdIds (createTexture st type w h imageFlags).2 rest = _
      rw [ih]
      show st.nextTextureId :: (List.range (countCreates rest)).map
          (fun k : Nat => st.nextTextureId + 1 + (k : Int)) = _
      rw [show countCreates (RegOp.createOp type w h imageFlags :: rest)
            = countCreates rest + 1 from rfl]
      rw [List.range_succ_eq_map, List.map_cons, List.map_map]
      have hf : ((fun k : Nat => st.nextTextureId + (k : Int)) ∘ Nat.succ)
          = fun k : Nat => st.nextTextureId + 1 + (k : Int) := by
        funext k
        show st.nextTextureId + ((k + 1 : Nat) : Int) = st.nextTextureId + 1 + (k : Int)
        push_cast
        ring
      rw [hf]
      norm_num
    | deleteOp image =>
      show createdIds (deleteTexture st image).2 rest = _
      rw [ih]
      rfl

/-- C6: over any interleaving of `CreateTexture` and `DeleteTexture`
operations on one renderer, the ids returned by successive `CreateTexture`
calls are strictly increasing, the first returned id is `1`, and no id is
ever returned twice — deletion never recycles ids because `nextTextureId` is
only ever incremented. -/
theorem createTexture_ids_strictly_increasing (ops : List RegOp) :
    List.Chain' (· < ·) (createdIds initRState ops)
    ∧ (createdIds initRState ops).head?
        = (if countCreates ops = 0 then none else some 1)
    ∧ (createdIds initRState ops).Nodup := by
  have he := createdIds_eq ops initRState
  have hpair : (createdIds initRState ops).Pairwise (· < ·) := by
    rw [he]
    refine List.Pairwise.map _ (fun a b hab => ?_) (List.pairwise_lt_range _)
    have : (a : Int) < (b : Int) := by exact_mod_cast hab
    omega
  refine ⟨hpair.chain', ?_, hpair.imp ne_of_lt⟩
  rw [he]
  cases hc : countCreates ops with
  | zero => simp
  | succ n =>
    rw [List.range_succ_eq_map]
    simp [initRState]

/-- C8: `UpdateTexture` on a registered texture ignores the caller's `x` and
`w`: with data provided, it issues exactly one transfer covering `h` full rows
of the registered width starting at row `y` (`x = 0`, `width` = registered
width), reading the data advanced by `y * width * bytes-per-pixel`, copying
`width * h * bytes-per-pixel` bytes, and returns success; on an unregistered
id it returns `0` and issues no transfer. -/
theorem updateTexture_full_rows (st : RState) (image x y w h : Int) (t : Texture) :
    (findTexture st image = some t →
      updateTexture st image x y w h true
        = (1, some
            { x := 0, y := y,
              width := t.textureDescriptor.width, height := h,
              srcOffset :=
                if t.textureDescriptor.type = NVG_TEXTURE_RGBA
                then y * t.textureDescriptor.width * 4
                else y * t.textureDescriptor.width,
              size :=
                if t.textureDescriptor.type = NVG_TEXTURE_RGBA
                then t.textureDescriptor.width * h * 4
                else t.textureDescriptor.width * h }))
    ∧ (findTexture st image = none →
        ∀ dataProvided, updateTexture st image x y w h dataProvided = (0, none)) := by
  constructor
  · intro hfound
    by_cases ht : t.textureDescriptor.type = NVG_TEXTURE_RGBA
    · simp [updateTexture, updateImage, hfound, ht]
    · simp [updateTexture, updateImage, hfound, ht]
  · intro hnone dataProvided
    simp [updateTexture, hnone]

theorem updateTexture_full_rows_witness :
    findTexture (createTexture initRState NVG_TEXTURE_RGBA 100 100 0).2 1
      = some ⟨1, ⟨100, 100, NVG_TEXTURE_RGBA, 0⟩⟩
    ∧ updateTexture (createTexture initRState NVG_TEXTURE_RGBA 100 100 0).2 1 5 10 20 4 true
      = (1, some { x := 0, y := 10, width := 100, height := 4,
                   srcOffset := 4000, size := 1600 }) :=
  ⟨by decide,
    (updateTexture_full_rows (createTexture initRState NVG_TEXTURE_RGBA 100 100 0).2
        1 5 10 20 4 ⟨1, ⟨100, 100, NVG_TEXTURE_RGBA, 0⟩⟩).1 (by decide)⟩

/-- C10: `GetTextureSize` with an id that is not currently registered returns
`0` and leaves the caller's `w`/`h` out-locations unmodified (they are written
only on the success path). -/
theorem getTextureSize_unknown_id (st : RState) (image w h : Int)
    (hunknown : ∀ t ∈ st.textures, t.id ≠ image) :
    getTextureSize st image w h = (0, w, h) := by
  have hfind : findTexture st image = none := by
    refine List.find?_eq_none.mpr (fun t ht => ?_)
    simpa using hunknown t ht
  simp [getTextureSize, getTextureDescriptor, hfind]

theorem getTextureSize_unknown_id_witness :
    (∀ t ∈ (createTexture initRState NVG_TEXTURE_RGBA 100 100 0).2.textures, t.id ≠ 3)
    ∧ getTextureSize (createTexture initRState NVG_TEXTURE_RGBA 100 100 0).2 3 17 19
      = (0, 17, 19) :=
  ⟨by decide,
    getTextureSize_unknown_id (createTexture initRState NVG_TEXTURE_RGBA 100 100 0).2
      3 17 19 (by decide)⟩

/-! ## Draw-call dispatcher (`dk_renderer.cpp` lines 255-451, 571-632)

The commands recorded into the dynamic command buffer are modelled as an
explicit list; each loop iteration of `Flush` ends with
`queue.submitCommands(dynCmdMem.end(dynCmdBuf)); queue.waitIdle();`, so the
submission list groups the recorded commands per call (the pre-loop setup
commands land in the first submission). -/

/-- Flags `NVGcreateFlags` from `dk_renderer.hpp`. -/
def NVG_ANTIALIAS : Int := 1
def NVG_STENCIL_STROKES : Int := 2

/-- Image flags from `nanovg.h` (external header). -/
def NVG_IMAGE_GENERATE_MIPMAPS : Int := 1
def NVG_IMAGE_REPEATX : Int := 2
def NVG_IMAGE_REPEATY : Int := 4
def NVG_IMAGE_NEAREST : Int := 32

/-- Test of a flag bit, `(flags & mask) != 0` on C `int` values (every flag
word in this renderer is a non-negative bitmask). -/
def flagTest (flags mask : Int) : Bool := flags.toNat &&& mask.toNat ≠ 0

/-- Bits of `SamplerType` from `dk_renderer.hpp`. -/
def SamplerType_MipFilter : Nat := 1
def SamplerType_Nearest : Nat := 2
def SamplerType_RepeatX : Nat := 4
def SamplerType_RepeatY : Nat := 8

/-- Constants `DKNVGcallType` from `dk_renderer.hpp`. -/
def DKNVG_NONE : Int := 0
def DKNVG_FILL : Int := 1
def DKNVG_CONVEXFILL : Int := 2
def DKNVG_STROKE : Int := 3
def DKNVG_TRIANGLES : Int := 4

/-- Structure `DKNVGblend` from `dk_renderer.hpp`. -/
structure DKNVGblend where
  srcRGB : Int
  dstRGB : Int
  srcAlpha : Int
  dstAlpha : Int
deriving DecidableEq, Repr

/-- Structure `DKNVGcall` from `dk_renderer.hpp`. -/
structure DKNVGcall where
  type : Int
  image : Int
  pathOffset : Int
  pathCount : Int
  triangleOffset : Int
  triangleCount : Int
  uniformOffset : Int
  blendFunc : DKNVGblend
deriving DecidableEq, Repr

/-- Structure `DKNVGpath` from `dk_renderer.hpp`. -/
structure DKNVGpath where
  fillOffset : Int
  fillCount : Int
  strokeOffset : Int
  strokeCount : Int
deriving DecidableEq, Repr

/-- The fields of `DKNVGcontext` the dispatcher reads or resets; the raw
vertex and uniform byte arrays are opaque (commands reference them only by
offset). -/
structure DKNVGcontext where
  flags : Int
  fragSize : Int
  calls : List DKNVGcall
  ncalls : Int
  paths : List DKNVGpath
  npaths : Int
  nverts : Int
  nuniforms : Int
deriving DecidableEq, Repr

/-- Array access `ctx->paths[idx]` (in-bounds in every defined execution). -/
def getPath (ctx : DKNVGcontext) (idx : Int) : DKNVGpath :=
  ctx.paths.getD idx.toNat ⟨0, 0, 0, 0⟩

inductive DkStage where
  | vertex
  | fragment
deriving DecidableEq, Repr

/-- The two persistent uniform buffers of `DkRenderer`. -/
inductive UBuf where
  | viewUniformBuffer
  | fragUniformBuffer
deriving DecidableEq, Repr

inductive DkPrimitive where
  | triangleFan
  | triangleStrip
  | triangles
deriving DecidableEq, Repr

inductive DkCompareOp where
  | always
  | equal
  | notEqual
deriving DecidableEq, Repr

inductive DkStencilOp where
  | keep
  | zero
  | incr
  | incrWrap
  | decrWrap
deriving DecidableEq, Repr

inductive DkFace where
  | none
  | front
  | back
  | frontAndBack
deriving DecidableEq, Repr

/-- State `dk::DepthStencilState`, restricted to the stencil fields this renderer
touches.  Field defaults are deko3d's: stencil test disabled, compare
`Always`, all ops `Keep`. -/
structure DepthStencilState where
  stencilTestEnable : Bool := false
  stencilFrontCompareOp : DkCompareOp := DkCompareOp.always
  stencilFrontFailOp : DkStencilOp := DkStencilOp.keep
  stencilFrontDepthFailOp : DkStencilOp := DkStencilOp.keep
  stencilFrontPassOp : DkStencilOp := DkStencilOp.keep
  stencilBackCompareOp : DkCompareOp := DkCompareOp.always
  stencilBackFailOp : DkStencilOp := DkStencilOp.keep
  stencilBackDepthFailOp : DkStencilOp := DkStencilOp.keep
  stencilBackPassOp : DkStencilOp := DkStencilOp.keep
deriving DecidableEq, Repr

/-- Value of a default-constructed depth-stencil state. -/
def defaultDepthStencilState : DepthStencilState := {}

/-- One command recorded into the dynamic command buffer.
`bindColorWriteState m` carries the write mask (`0` for
`setMask(0, 0)`, `0xF` for the default state); `bindRasterizerState` carries
the cull mode (`DkFace.back` is deko3d's default). -/
inductive Cmd where
  | setStencil (face : DkFace) (mask funcRef funcMask : Int)
  | bindDepthStencilState (state : DepthStencilState)
  | bindColorWriteState (mask : Int)
  | bindRasterizerState (cullMode : DkFace)
  | pushConstants (buf : UBuf) (srcOffset size : Int)
  | bindUniformBuffer (stage : DkStage) (slot : Nat) (buf : UBuf)
  | updateImageDescriptor (slot : Nat) (image : Int)
  | barrierInvalidateDescriptors
  | bindTextures (stage : DkStage) (descId samplerId : Nat)
  | draw (prim : DkPrimitive) (count instances first : Int)
  | bindBlendStates (srcRGB dstRGB srcAlpha dstAlpha : Int)
  | bindColorState (blendEnable : Bool)
  | bindShaders
  | bindVtxAttribState
  | bindVtxBufferState
  | bindVtxBuffer
deriving DecidableEq, Repr

/-- Wrapper for `AcquireImageDescriptor` as seen by `SetUniforms`: the returned slot id
(`-1` on failure) together with the commands it records into `dynCmdBuf`
(descriptor-set update plus descriptor-cache invalidation barrier on a cache
miss, nothing otherwise). -/
def acquireImageDescriptor (alloc : AllocState) (image : Int) :
    Int × List Cmd × AllocState :=
  match acquire alloc image with
  | (AcquireResult.hit d, alloc') => (Int.ofNat d, [], alloc')
  | (AcquireResult.miss d, alloc') =>
    (Int.ofNat d,
      [Cmd.updateImageDescriptor d image, Cmd.barrierInvalidateDescriptors], alloc')
  | (AcquireResult.fail, alloc') => (-1, [], alloc')

/-- The sampler-selector composition in `SetUniforms` (lines 276-282). -/
def samplerIdFor (imageFlags : Int) : Nat :=
  let samplerId : Nat := 0
  let samplerId := if flagTest imageFlags NVG_IMAGE_GENERATE_MIPMAPS
                   then samplerId ||| SamplerType_MipFilter else samplerId
  let samplerId := if flagTest imageFlags NVG_IMAGE_NEAREST
                   then samplerId ||| SamplerType_Nearest else samplerId
  let samplerId := if flagTest imageFlags NVG_IMAGE_REPEATX
                   then samplerId ||| SamplerType_RepeatX else samplerId
  let samplerId := if flagTest imageFlags NVG_IMAGE_REPEATY
                   then samplerId ||| SamplerType_RepeatY else samplerId
  samplerId

/-- Function `DkRenderer::SetUniforms` (lines 255-285): push the uniform block at
`offset` and bind it to the fragment stage **unconditionally**; then resolve
the image id and, only if a texture and a descriptor slot are found, bind the
combined image+sampler handle. -/
def setUniforms (st : RState) (ctx : DKNVGcontext) (offset image : Int) :
    List Cmd × RState :=
  let base : List Cmd :=
    [Cmd.pushConstants UBuf.fragUniformBuffer offset ctx.fragSize,
     Cmd.bindUniformBuffer DkStage.fragment 0 UBuf.fragUniformBuffer]
  match findTexture st image with
  | none => (base, st)
  | some texture =>
    let (imageDescId, acquireCmds, alloc') := acquireImageDescriptor st.alloc image
    let st' := { st with alloc := alloc' }
    if imageDescId = -1 then
      (base ++ acquireCmds, st')
    else
      (base ++ acquireCmds
        ++ [Cmd.bindTextures DkStage.fragment imageDescId.toNat
              (samplerIdFor texture.textureDescriptor.flags)],
       st')

/-- The `DrawFill` phase-A state (lines 296-305): increment-wrap on front faces,
decrement-wrap on back faces, compare always. -/
def fillShapeState : DepthStencilState :=
  { stencilTestEnable := true,
    stencilFrontCompareOp := DkCompareOp.always,
    stencilFrontFailOp := DkStencilOp.keep,
    stencilFrontDepthFailOp := DkStencilOp.keep,
    stencilFrontPassOp := DkStencilOp.incrWrap,
    stencilBackCompareOp := DkCompareOp.always,
    stencilBackFailOp := DkStencilOp.keep,
    stencilBackDepthFailOp := DkStencilOp.keep,
    stencilBackPassOp := DkStencilOp.decrWrap }

/-- The `DrawFill` anti-aliasing state (lines 326-334): equal-test, keep. -/
def fillAntiAliasState : DepthStencilState :=
  { fillShapeState with
    stencilFrontCompareOp := DkCompareOp.equal,
    stencilFrontPassOp := DkStencilOp.keep,
    stencilBackCompareOp := DkCompareOp.equal,
    stencilBackPassOp := DkStencilOp.keep }

/-- The `DrawFill` cover state (lines 345-353): not-equal test, zero-on-anything
(clears the accumulated winding as the cover quad draws). -/
def fillCoverState : DepthStencilState :=
  { fillAntiAliasState with
    stencilFrontCompareOp := DkCompareOp.notEqual,
    stencilFrontFailOp := DkStencilOp.zero,
    stencilFrontDepthFailOp := DkStencilOp.zero,
    stencilFrontPassOp := DkStencilOp.zero,
    stencilBackCompareOp := DkCompareOp.notEqual,
    stencilBackFailOp := DkStencilOp.zero,
    stencilBackDepthFailOp := DkStencilOp.zero,
    stencilBackPassOp := DkStencilOp.zero }

/-- The `DrawStroke` base pass state (lines 392-397): front equal/increment. -/
def strokeBaseState : DepthStencilState :=
  { stencilTestEnable := true,
    stencilFrontCompareOp := DkCompareOp.equal,
    stencilFrontFailOp := DkStencilOp.keep,
    stencilFrontDepthFailOp := DkStencilOp.keep,
    stencilFrontPassOp := DkStencilOp.incr }

/-- The `DrawStroke` anti-alias pass state (line 408): front pass op `Keep`. -/
def strokeAAState : DepthStencilState :=
  { strokeBaseState with stencilFrontPassOp := DkStencilOp.keep }

/-- The stencil-clearing state the source *configures* at lines 419-424
(always-test, zero ops) — the source never passes this value to
`bindDepthStencilState`, which is the defect behind claim C3. -/
def strokeClearState : DepthStencilState :=
  { strokeAAState with
    stencilFrontCompareOp := DkCompareOp.always,
    stencilFrontFailOp := DkStencilOp.zero,
    stencilFrontDepthFailOp := DkStencilOp.zero,
    stencilFrontPassOp := DkStencilOp.zero }

/-- Function `DkRenderer::DrawFill` (lines 287-360). -/
def drawFill (st : RState) (ctx : DKNVGcontext) (call : DKNVGcall) :
    List Cmd × RState :=
  let npaths := call.pathCount.toNat
  let fanDraws := (List.range npaths).map (fun i =>
    let p := getPath ctx (call.pathOffset + (i : Int))
    Cmd.draw DkPrimitive.triangleFan p.fillCount 1 p.fillOffset)
  let fringeDraws := (List.range npaths).map (fun i =>
    let p := getPath ctx (call.pathOffset + (i : Int))
    Cmd.draw DkPrimitive.triangleStrip p.strokeCount 1 p.strokeOffset)
  let (u1, st1) := setUniforms st ctx call.uniformOffset 0
  let (u2, st2) := setUniforms st1 ctx (call.uniformOffset + ctx.fragSize) call.image
  ([Cmd.setStencil DkFace.frontAndBack 0xFF 0x0 0xFF,
    Cmd.bindDepthStencilState fillShapeState,
    Cmd.bindColorWriteState 0]
   ++ u1
   ++ [Cmd.bindRasterizerState DkFace.none]
   ++ fanDraws
   ++ [Cmd.bindColorWriteState 0xF]
   ++ u2
   ++ [Cmd.bindRasterizerState DkFace.back]
   ++ (if flagTest ctx.flags NVG_ANTIALIAS then
        Cmd.bindDepthStencilState fillAntiAliasState :: fringeDraws
      else [])
   ++ [Cmd.bindDepthStencilState fillCoverState,
       Cmd.draw DkPrimitive.triangleStrip call.triangleCount 1 call.triangleOffset,
       Cmd.bindDepthStencilState defaultDepthStencilState],
   st2)

/-- Function `DkRenderer::DrawConvexFill` (lines 362-379). -/
def drawConvexFill (st : RState) (ctx : DKNVGcontext) (call : DKNVGcall) :
    List Cmd × RState :=
  let npaths := call.pathCount.toNat
  let (u, st1) := setUniforms st ctx call.uniformOffset call.image
  let pathDraws := (List.range npaths).map (fun i =>
    let p := getPath ctx (call.pathOffset + (i : Int))
    Cmd.draw DkPrimitive.triangleFan p.fillCount 1 p.fillOffset
      :: (if 0 < p.strokeCount then
            [Cmd.draw DkPrimitive.triangleStrip p.strokeCount 1 p.strokeOffset]
          else []))
  (u ++ pathDraws.flatten, st1)

/-- Function `DkRenderer::DrawStroke` (lines 381-445).  In the stencil-strokes branch
the third (clear) pass issues its draws right after the second pass: the
source mutates its local state variable into `strokeClearState` but never
binds it. -/
def drawStroke (st : RState) (ctx : DKNVGcontext) (call : DKNVGcall) :
    List Cmd × RState :=
  let npaths := call.pathCount.toNat
  let strokeDraws := (List.range npaths).map (fun i =>
    let p := getPath ctx (call.pathOffset + (i : Int))
    Cmd.draw DkPrimitive.triangleStrip p.strokeCount 1 p.strokeOffset)
  if flagTest ctx.flags NVG_STENCIL_STROKES then
    let (u1, st1) := setUniforms st ctx (call.uniformOffset + ctx.fragSize) call.image
    let (u2, st2) := setUniforms st1 ctx call.uniformOffset call.image
    ([Cmd.setStencil DkFace.front 0xFF 0x0 0xFF,
      Cmd.bindDepthStencilState strokeBaseState]
     ++ u1 ++ strokeDraws
     ++ [Cmd.bindDepthStencilState strokeAAState]
     ++ u2 ++ strokeDraws
     ++ strokeDraws
     ++ [Cmd.bindDepthStencilState defaultDepthStencilState],
     st2)
  else
    let (u, st1) := setUniforms st ctx call.uniformOffset call.image
    (u ++ strokeDraws, st1)

/-- Function `DkRenderer::DrawTriangles` (lines 447-451). -/
def drawTriangles (st : RState) (ctx : DKNVGcontext) (call : DKNVGcall) :
    List Cmd × RState :=
  let (u, st1) := setUniforms st ctx call.uniformOffset call.image
  (u ++ [Cmd.draw DkPrimitive.triangles call.triangleCount 1 call.triangleOffset], st1)

/-- The per-call body of the `Flush` loop (lines 598-624): bind the blend
state — the source passes `call->blendFunc.dstRGB` again as the fourth
(alpha-destination) factor — then dispatch on the call type. -/
def dispatchCall (st : RState) (ctx : DKNVGcontext) (call : DKNVGcall) :
    List Cmd × RState :=
  let blendBind := Cmd.bindBlendStates call.blendFunc.srcRGB call.blendFunc.dstRGB
      call.blendFunc.srcAlpha call.blendFunc.dstRGB
  let (cmds, st') :=
    if call.type = DKNVG_FILL then drawFill st ctx call
    else if call.type = DKNVG_CONVEXFILL then drawConvexFill st ctx call
    else if call.type = DKNVG_STROKE then drawStroke st ctx call
    else if call.type = DKNVG_TRIANGLES then drawTriangles st ctx call
    else ([], st)
  (blendBind :: cmds, st')

/-- The pre-loop setup recorded by `Flush` (lines 577-595); the vertex-buffer
replacement (`UpdateVertexBuffer`) is a CPU-side pool operation, not a
recorded command. -/
def setupCmds : List Cmd :=
  [Cmd.bindColorState true,
   Cmd.bindShaders,
   Cmd.bindVtxAttribState,
   Cmd.bindVtxBufferState,
   Cmd.bindVtxBuffer,
   Cmd.pushConstants UBuf.viewUniformBuffer 0 8,
   Cmd.bindUniformBuffer DkStage.vertex 0 UBuf.viewUniformBuffer]

/-- The `Flush` loop: one submission (followed by `waitIdle`) per call. -/
def flushCalls (st : RState) (ctx : DKNVGcontext) :
    List DKNVGcall → List (List Cmd) × RState
  | [] => ([], st)
  | call :: rest =>
    let (cmds, st') := dispatchCall st ctx call
    let (subs, st'') := flushCalls st' ctx rest
    (cmds :: subs, st'')

/-- Function `DkRenderer::Flush` (lines 571-632): when the call list is non-empty,
record setup plus per-call commands, submitting after every call; in all
cases reset the frame counters to zero.  Result: the per-call submissions,
the renderer state, and the context after the counter reset. -/
def flush (st : RState) (ctx : DKNVGcontext) :
    List (List Cmd) × RState × DKNVGcontext :=
  let (subs, st') :=
    if 0 < ctx.ncalls then
      match flushCalls st ctx (ctx.calls.take ctx.ncalls.toNat) with
      | (s0 :: rest, stEnd) => ((setupCmds ++ s0) :: rest, stEnd)
      | ([], stEnd) => ([], stEnd)
    else ([], st)
  (subs, st',
    { ctx with nverts := 0, npaths := 0, ncalls := 0, nuniforms := 0 })

/-- For each `draw` command, the depth-stencil state most recently bound
before it (`d0` is the state in effect when the list starts recording). -/
def dssAtDraws (d0 : DepthStencilState) : List Cmd → List DepthStencilState
  | [] => []
  | Cmd.bindDepthStencilState s :: rest => dssAtDraws s rest
  | Cmd.draw _ _ _ _ :: rest => d0 :: dssAtDraws d0 rest
  | _ :: rest => dssAtDraws d0 rest

/-- The blend-factor tuples bound by a command list, in order. -/
def blendBindings : List Cmd → List (Int × Int × Int × Int)
  | [] => []
  | Cmd.bindBlendStates a b c d :: rest => (a, b, c, d) :: blendBindings rest
  | _ :: rest => blendBindings rest

/-! ### C3: the stencil-clearing pass of `DrawStroke` -/

/-- Context for a stencil-stroke frame: stencil strokes enabled, one sub-path
with a 6-vertex stroke strip. -/
def strokeCtx : DKNVGcontext :=
  { flags := NVG_STENCIL_STROKES, fragSize := 180,
    calls := [], ncalls := 0,
    paths := [⟨0, 0, 0, 6⟩], npaths := 1, nverts := 6, nuniforms := 2 }

/-- A stroke call over that sub-path. -/
def strokeCall : DKNVGcall :=
  { type := DKNVG_STROKE, image := 1, pathOffset := 0, pathCount := 1,
    triangleOffset := 0, triangleCount := 0, uniformOffset := 0,
    blendFunc := ⟨1, 1, 1, 1⟩ }

/-- C3 (the code defect): with stencil strokes enabled, `DrawStroke` records
three draws per sub-path; the depth-stencil state in effect at the third
(stencil-clearing) draw is still `strokeAAState` — compare `Equal`, all ops
`Keep` — because the source configures `strokeClearState` (compare `Always`,
ops `Zero`) at lines 419-424 but never binds it.  The stroke footprint is
therefore **not** reset to zero, contrary to the claim and to the source's
own comment. -/
theorem drawStroke_clear_pass_state_not_bound :
    dssAtDraws defaultDepthStencilState (drawStroke initRState strokeCtx strokeCall).1
      = [strokeBaseState, strokeAAState, strokeAAState]
    ∧ strokeAAState.stencilFrontCompareOp = DkCompareOp.equal
    ∧ strokeAAState.stencilFrontPassOp = DkStencilOp.keep
    ∧ strokeAAState ≠ strokeClearState
    ∧ strokeClearState.stencilFrontCompareOp = DkCompareOp.always
    ∧ strokeClearState.stencilFrontFailOp = DkStencilOp.zero
    ∧ strokeClearState.stencilFrontDepthFailOp = DkStencilOp.zero
    ∧ strokeClearState.stencilFrontPassOp = DkStencilOp.zero := by
  refine ⟨by decide, by decide, by decide, by decide, by decide, by decide, by decide, by decide⟩

/-! ### C4: blend factors bound by `Flush` -/

/-- A triangle-batch call whose four blend factors are pairwise distinct. -/
def blendCall : DKNVGcall :=
  { type := DKNVG_TRIANGLES, image := 0, pathOffset := 0, pathCount := 0,
    triangleOffset := 0, triangleCount := 3, uniformOffset := 0,
    blendFunc := ⟨1, 2, 3, 4⟩ }

/-- A frame consisting of that single call. -/
def blendCtx : DKNVGcontext :=
  { flags := 0, fragSize := 180, calls := [blendCall], ncalls := 1,
    paths := [], npaths := 0, nverts := 3, nuniforms := 1 }

/-- C4 (the code defect): for a call with blend factors
`(srcRGB, dstRGB, srcAlpha, dstAlpha) = (1, 2, 3, 4)`, the blend state bound
by `Flush` is `(1, 2, 3, 2)` — the source passes `call->blendFunc.dstRGB`
again in the alpha-destination slot, so the bound alpha-destination factor is
`2 ≠ 4` and the `dstAlpha` field is never read. -/
theorem flush_blend_dstAlpha_uses_dstRGB :
    blendBindings ((flush initRState blendCtx).1.flatten) = [(1, 2, 3, 2)]
    ∧ blendCall.blendFunc.dstAlpha = 4
    ∧ ((1 : Int), (2 : Int), (3 : Int), (2 : Int)) ≠ (1, 2, 3, 4) := by
  refine ⟨by decide, by decide, by decide⟩

/-! ### C5: soft degrade in `SetUniforms` -/

/-- A failed `AcquireImageDescriptor` records no commands and leaves the
allocator unchanged. -/
theorem acquireImageDescriptor_fail_no_cmds (alloc : AllocState) (image : Int)
    (h : (acquireImageDescriptor alloc image).1 = -1) :
    (acquireImageDescriptor alloc image).2.1 = []
    ∧ (acquireImageDescriptor alloc image).2.2 = alloc := by
  rcases hres : (acquire alloc image).1 with d | d | _
  · rcases hpair : acquire alloc image with ⟨res, alloc'⟩
    rw [hpair] at hres
    simp only at hres
    subst hres
    simp [acquireImageDescriptor, hpair] at h
  · rcases hpair : acquire alloc image with ⟨res, alloc'⟩
    rw [hpair] at hres
    simp only at hres
    subst hres
    simp [acquireImageDescriptor, hpair] at h
  · rcases hpair : acquire alloc image with ⟨res, alloc'⟩
    rw [hpair] at hres
    simp only at hres
    subst hres
    have hst : alloc' = alloc := by
      have := acquire_state_eq_of_not_miss alloc image (by simp [hpair])
      rw [hpair] at this
      exact this
    simp [acquireImageDescriptor, hpair, hst]

/-- C5 (amended): when the call's image id resolves to no registered texture,
or no descriptor slot can be acquired, `SetUniforms` skips **only the texture
binding**: the uniform block is still pushed and bound to the fragment stage
(those two commands are recorded before the lookup), the operation returns
without error, and the caller's draw commands are still emitted —
`DrawTriangles` appends its draw after whatever `SetUniforms` recorded. -/
theorem setUniforms_soft_degrade (st : RState) (ctx : DKNVGcontext) (call : DKNVGcall)
    (h : findTexture st call.image = none
      ∨ (acquireImageDescriptor st.alloc call.image).1 = -1) :
    (setUniforms st ctx call.uniformOffset call.image).1
      = [Cmd.pushConstants UBuf.fragUniformBuffer call.uniformOffset ctx.fragSize,
         Cmd.bindUniformBuffer DkStage.fragment 0 UBuf.fragUniformBuffer]
    ∧ (∀ stage descId samplerId,
        Cmd.bindTextures stage descId samplerId
          ∉ (setUniforms st ctx call.uniformOffset call.image).1)
    ∧ (drawTriangles st ctx call).1
      = (setUniforms st ctx call.uniformOffset call.image).1
        ++ [Cmd.draw DkPrimitive.triangles call.triangleCount 1 call.triangleOffset] := by
  have hbase : (setUniforms st ctx call.uniformOffset call.image).1
      = [Cmd.pushConstants UBuf.fragUniformBuffer call.uniformOffset ctx.fragSize,
         Cmd.bindUniformBuffer DkStage.fragment 0 UBuf.fragUniformBuffer] := by
    rcases h with hnone | hfail
    · simp [setUniforms, hnone]
    · rcases hfind : findTexture st call.image with _ | texture
      · simp [setUniforms, hfind]
      · obtain ⟨hcmds, _⟩ := acquireImageDescriptor_fail_no_cmds st.alloc call.image hfail
        rcases hacq : acquireImageDescriptor st.alloc call.image with ⟨descId, cmds, alloc'⟩
        rw [hacq] at hfail hcmds
        simp only at hfail hcmds
        subst hfail
        subst hcmds
        simp [setUniforms, hfind, hacq]
  refine ⟨hbase, ?_, by simp [drawTriangles]⟩
  intro stage descId samplerId
  rw [hbase]
  simp

theorem setUniforms_soft_degrade_witness :
    (findTexture initRState strokeCall.image = none
      ∨ (acquireImageDescriptor initRState.alloc strokeCall.image).1 = -1)
    ∧ (setUniforms initRState strokeCtx strokeCall.uniformOffset strokeCall.image).1
      = [Cmd.pushConstants UBuf.fragUniformBuffer strokeCall.uniformOffset strokeCtx.fragSize,
         Cmd.bindUniformBuffer DkStage.fragment 0 UBuf.fragUniformBuffer] :=
  ⟨Or.inl (by decide),
    (setUniforms_soft_degrade initRState strokeCtx strokeCall (Or.inl (by decide))).1⟩

/-- C5 (counterexample to the claim as stated): with no texture registered
under id `7`, `SetUniforms` still records the uniform-block push and binding
— the claim's "both the uniform-block binding and the texture binding are
skipped" is false; only the texture binding is skipped. -/
theorem setUniforms_unknown_image_still_binds_uniform_block :
    findTexture initRState 7 = none
    ∧ Cmd.bindUniformBuffer DkStage.fragment 0 UBuf.fragUniformBuffer
        ∈ (setUniforms initRState strokeCtx 0 7).1 := by
  refine ⟨by decide, by decide⟩

/-! ### C9: `Flush` on an empty call list -/

/-- C9: when the context's call count is zero, `Flush` performs no queue
submission, and on return the frame counters `nverts`, `npaths`, `ncalls`,
`nuniforms` are all zero. -/
theorem flush_no_calls_no_submission (st : RState) (ctx : DKNVGcontext)
    (h : ctx.ncalls = 0) :
    (flush st ctx).1 = []
    ∧ (flush st ctx).2.2.nverts = 0
    ∧ (flush st ctx).2.2.npaths = 0
    ∧ (flush st ctx).2.2.ncalls = 0
    ∧ (flush st ctx).2.2.nuniforms = 0 := by
  refine ⟨?_, rfl, rfl, rfl, rfl⟩
  simp [flush, h]

theorem flush_no_calls_no_submission_witness :
    ({ strokeCtx with ncalls := 0 } : DKNVGcontext).ncalls = 0
    ∧ (flush initRState { strokeCtx with ncalls := 0 }).1 = [] :=
  ⟨rfl, (flush_no_calls_no_submission initRState { strokeCtx with ncalls := 0 } rfl).1⟩

end NvgDk
